import Mathlib

/-!
Verification of the CPython extension shim `src/csgo/parser/wrapper.c`.

The shim exposes a Python-callable `parse` backed by a Go parser.  Its only
logic is argument marshaling: `PyArg_ParseTuple_parse_demo` calls CPython's
`PyArg_ParseTuple` with the fixed format string `"sbpLspsps"`, writing nine
converted native values through caller-supplied pointers, and the module
registration tables expose `parse_demo` as `parse` (METH_VARARGS) in a module
named `wrapper`.

We embed the documented semantics of the CPython argument-conversion codes
actually used (`s`, `b`, `p`, `L`) over a small universe of Python values,
model the conversion as the left-to-right single pass with direct writes that
CPython performs (arity checked first, then each position converted and
stored in turn, aborting at the first failure), and model the Go-side
`parse_demo` body, which is declared but not defined in the C source, from
the specification.
-/

/-- A Python value, restricted to the primitive shapes the claims exercise:
text, arbitrary-precision integers, booleans and `None`. -/
inductive PyValue where
  | PStr (s : String)
  | PInt (n : Int)
  | PBool (b : Bool)
  | PNone
deriving DecidableEq

/-- An error surfaced to the Python caller: either the local argument
conversion failure raised by `PyArg_ParseTuple`, or an arbitrary failure
raised by the external parser entry point. -/
inductive PyErr where
  | conversionError
  | parserFailure (msg : String)
deriving DecidableEq

/-- The format codes occurring in the format string `"sbpLspsps"` of
`wrapper.c`: `s` (UTF-8 string), `b` (unsigned byte integer), `p`
(truth-value predicate), `L` (long long). -/
inductive FmtCode where
  | s
  | b
  | p
  | L
deriving DecidableEq

/-- A native value as stored by one conversion code: `char*` for `s`,
the `unsigned char` store of `b`, the `int` 0/1 store of `p`, and the
`long long` store of `L`. -/
inductive NativeVal where
  | nStr (s : String)
  | nUChar (n : Int)
  | nInt01 (n : Int)
  | nLongLong (n : Int)
deriving DecidableEq

/-- Reading one character of a CPython format string as a format code. -/
def fmtOfChar : Char → Option FmtCode
  | 's' => some FmtCode.s
  | 'b' => some FmtCode.b
  | 'p' => some FmtCode.p
  | 'L' => some FmtCode.L
  | _ => none

/-- The format string passed to `PyArg_ParseTuple` in
`PyArg_ParseTuple_parse_demo` (wrapper.c line 35). -/
def formatString : String := "sbpLspsps"

/-- The format descriptor of `PyArg_ParseTuple_parse_demo`, read off its
format string. -/
def fmtParsedemo : List FmtCode := formatString.toList.filterMap fmtOfChar

/-- Whether a string contains an embedded NUL character; the `s` code
rejects such strings. -/
def hasNul (s : String) : Bool := s.data.any (fun c => c = Char.ofNat 0)

/-- `PyObject_IsTrue` on our value universe: the truthiness used by the `p`
code.  Total here: every modelled value has a defined truth value. -/
def truthy : PyValue → Bool
  | PyValue.PBool b => b
  | PyValue.PInt n => n != 0
  | PyValue.PStr s => !s.isEmpty
  | PyValue.PNone => false

/-- `PyLong_AsLong`-style integer extraction (no range check): accepts
Python ints and bools (bool is an int subtype), rejects everything else. -/
def asLong : PyValue → Option Int
  | PyValue.PInt n => some n
  | PyValue.PBool b => some (if b then 1 else 0)
  | _ => none

/-- The smallest value of a signed 64-bit `long long`. -/
def int64Min : Int := -(2 ^ 63)

/-- The largest value of a signed 64-bit `long long`. -/
def int64Max : Int := 2 ^ 63 - 1

/-- Conversion of a single argument under one format code, following the
documented CPython semantics:
* `s`: the argument must be a str with no embedded NUL; stored as `char*`;
* `b`: the argument must be integer-like and lie in 0..255 (`unsigned char`
  range), otherwise an overflow error;
* `p`: any argument is accepted and its truthiness is stored as the int
  0 or 1;
* `L`: the argument must be integer-like and fit in a signed 64-bit
  `long long`, otherwise an overflow error. -/
def convertCode : FmtCode → PyValue → Option NativeVal
  | FmtCode.s, v =>
    match v with
    | PyValue.PStr s => if hasNul s then none else some (NativeVal.nStr s)
    | _ => none
  | FmtCode.b, v =>
    match asLong v with
    | some n => if 0 ≤ n ∧ n ≤ 255 then some (NativeVal.nUChar n) else none
    | none => none
  | FmtCode.p, v => some (NativeVal.nInt01 (if truthy v then 1 else 0))
  | FmtCode.L, v =>
    match asLong v with
    | some n =>
      if int64Min ≤ n ∧ n ≤ int64Max then some (NativeVal.nLongLong n)
      else none
    | none => none

/-- The conversion loop of `PyArg_ParseTuple`: positions are converted left
to right, each successful conversion writing its native value into the
caller's output slot immediately; the first failure aborts the loop,
leaving the writes already made in place. -/
def convertAll : List FmtCode → List PyValue → List NativeVal → Nat →
    Bool × List NativeVal
  | [], [], slots, _ => (true, slots)
  | [], _ :: _, slots, _ => (false, slots)
  | _ :: _, [], slots, _ => (false, slots)
  | f :: fs, a :: rest, slots, i =>
    match convertCode f a with
    | none => (false, slots)
    | some v => convertAll fs rest (slots.set i v) (i + 1)

/-- `PyArg_ParseTuple` for a format of only non-optional scalar codes: the
tuple length is checked against the format first (no output is written on
an arity mismatch), then the single conversion pass runs. -/
def PyArg_ParseTuple (fmt : List FmtCode) (args : List PyValue)
    (slots : List NativeVal) : Bool × List NativeVal :=
  if args.length = fmt.length then convertAll fmt args slots 0
  else (false, slots)

/-- The conversion shim of wrapper.c (lines 22-39): forwards the argument
tuple and the nine output locations to `PyArg_ParseTuple` with the fixed
format string, returning its result unchanged. -/
def PyArg_ParseTuple_parse_demo (args : List PyValue)
    (slots : List NativeVal) : Bool × List NativeVal :=
  PyArg_ParseTuple fmtParsedemo args slots

instance : DecidableEq (Except PyErr PyValue) := fun a b =>
  match a, b with
  | Except.ok x, Except.ok y => decidable_of_iff (x = y) (by simp)
  | Except.error x, Except.error y => decidable_of_iff (x = y) (by simp)
  | Except.ok _, Except.error _ => isFalse (by simp)
  | Except.error _, Except.ok _ => isFalse (by simp)

/-- The observable outcome of one call of the exported `parse` callable:
the value or error returned to Python, the final contents of the nine
native output locations, and whether the external parser entry point was
invoked. -/
structure CallResult where
  result : Except PyErr PyValue
  slots : List NativeVal
  parserInvoked : Bool
deriving DecidableEq

/-- Modelled from the spec: the Go-side body of `parse_demo`, which
wrapper.c declares (line 20) but does not define.  Per the spec, it
converts the argument tuple through `PyArg_ParseTuple_parse_demo`; on
conversion failure it surfaces the conversion error without invoking the
parser; on success it invokes exactly one external entry point with the
call context and the nine converted values, and returns that entry point's
result verbatim, with no recovery, retry or wrapping. -/
def parse_demo (parseEntry : PyValue → List NativeVal → Except PyErr PyValue)
    (self : PyValue) (args : List PyValue) (slots : List NativeVal) :
    CallResult :=
  match PyArg_ParseTuple_parse_demo args slots with
  | (true, slots1) =>
    { result := parseEntry self slots1, slots := slots1, parserInvoked := true }
  | (false, slots1) =>
    { result := Except.error PyErr.conversionError, slots := slots1,
      parserInvoked := false }

/-- CPython method-calling conventions relevant here. -/
inductive MethFlags where
  | METH_VARARGS
  | METH_KEYWORDS
  | METH_NOARGS
deriving DecidableEq

/-- One non-sentinel entry of a `PyMethodDef` table: exposed name and
calling convention (the `{NULL, NULL}` sentinel terminating the C array is
modelled by the end of the list). -/
structure PyMethodDef where
  ml_name : String
  ml_flags : MethFlags
deriving DecidableEq

/-- The method table of wrapper.c (lines 41-44): the single entry
`{"parse", (PyCFunction)parse_demo, METH_VARARGS}`. -/
def methods : List PyMethodDef :=
  [{ ml_name := "parse", ml_flags := MethFlags.METH_VARARGS }]

/-- A `PyModuleDef`: module name, docstring, per-module state size, and
method table. -/
structure PyModuleDef where
  m_name : String
  m_doc : Option String
  m_size : Int
  m_methods : List PyMethodDef
deriving DecidableEq

/-- The module definition of wrapper.c (lines 46-52). -/
def module : PyModuleDef :=
  { m_name := "wrapper", m_doc := none, m_size := -1, m_methods := methods }

/-- A module handle as returned by module creation: the module name and its
name-to-function table. -/
structure ModuleHandle where
  name : String
  table : List PyMethodDef
deriving DecidableEq

/-- Process-wide mutable state visible to the shim, as an abstract list of
allocated global cells. -/
structure ProcState where
  globals : List String
deriving DecidableEq

/-- Modelled from the spec: CPython's `PyModule_Create`, an external
collaborator, which per the spec builds a name-to-function table from the
module definition and returns a module handle, allocating no process-wide
mutable state owned by this layer. -/
def PyModule_Create (md : PyModuleDef) : ModuleHandle :=
  { name := md.m_name, table := md.m_methods }

/-- The module initialization function of wrapper.c (lines 54-56): it only
returns `PyModule_Create(&module)`, threading the process state through
untouched. -/
def PyInit_wrapper (st : ProcState) : ModuleHandle × ProcState :=
  (PyModule_Create module, st)

/-- Looking up a callable by name in a module handle's table. -/
def lookupMethod (nm : String) (h : ModuleHandle) : Option PyMethodDef :=
  h.table.find? (fun e => e.ml_name == nm)

/-- The C scalar types appearing in the declared signature of
`PyArg_ParseTuple_parse_demo` and expected by the format codes. -/
inductive CType where
  | charPtr
  | cInt
  | cBool
  | cUChar
  | cLongLong
deriving DecidableEq

/-- The C type each format code stores through its output pointer, per the
CPython documentation: `s` stores a `char*`, `b` an `unsigned char`, `p`
an `int`, `L` a `long long`. -/
def fmtNativeType : FmtCode → CType
  | FmtCode.s => CType.charPtr
  | FmtCode.b => CType.cUChar
  | FmtCode.p => CType.cInt
  | FmtCode.L => CType.cLongLong

/-- The pointed-to types of the nine declared output parameters of
`PyArg_ParseTuple_parse_demo` (wrapper.c lines 24-32): `char**`, `int*`,
`bool*`, `int64_t*`, `char**`, `bool*`, `char**`, `bool*`, `char**`
(`int64_t` is `long long` on every platform CPython supports). -/
def declaredParamTypes : List CType :=
  [CType.charPtr, CType.cInt, CType.cBool, CType.cLongLong, CType.charPtr,
   CType.cBool, CType.charPtr, CType.cBool, CType.charPtr]

/-- The format descriptor asserted by the spec, read from its words
"string, boolean, boolean, 64-bit integer, string, boolean, string,
boolean, string" with the truth-value code `p` for "boolean"; kept for
comparison against the descriptor read from the source. -/
def specClaimedDescriptor : List FmtCode :=
  [FmtCode.s, FmtCode.p, FmtCode.p, FmtCode.L, FmtCode.s, FmtCode.p,
   FmtCode.s, FmtCode.p, FmtCode.s]

/-- Whether a Python value is a str. -/
def isStr : PyValue → Bool
  | PyValue.PStr _ => true
  | _ => false

/-- Whether a Python value is integer-like (an int or a bool). -/
def isIntLike : PyValue → Bool
  | PyValue.PInt _ => true
  | PyValue.PBool _ => true
  | _ => false

/-- A stub parser entry point returning a fixed success value, used to
observe the adapter's forwarding behaviour on concrete calls. -/
def stubOk : PyValue → List NativeVal → Except PyErr PyValue :=
  fun _ _ => Except.ok PyValue.PNone

/-- Nine zero-initialized output locations, as the Go caller supplies. -/
def initSlots : List NativeVal :=
  [NativeVal.nStr "", NativeVal.nUChar 0, NativeVal.nInt01 0,
   NativeVal.nLongLong 0, NativeVal.nStr "", NativeVal.nInt01 0,
   NativeVal.nStr "", NativeVal.nInt01 0, NativeVal.nStr ""]

/-- A well-typed nine-argument tuple with the parse-rate position set to
the given integer. -/
def rateArgs (v : Int) : List PyValue :=
  [PyValue.PStr "match.dem", PyValue.PInt v, PyValue.PBool true,
   PyValue.PInt 0, PyValue.PStr "hltv", PyValue.PBool false,
   PyValue.PStr "demo1", PyValue.PBool false, PyValue.PStr "out.json"]

/-- A nine-argument tuple with arbitrary values at the three truth-value
positions (parse_frames, damages_rolled, json_indentation) and well-typed
values elsewhere. -/
def boolArgs (f d j : PyValue) : List PyValue :=
  [PyValue.PStr "match.dem", PyValue.PInt 32, f, PyValue.PInt 5,
   PyValue.PStr "hltv", d, PyValue.PStr "demo1", j, PyValue.PStr "out.json"]

/-- A nine-argument tuple that is well typed except that position 3
(parse_frames, declared boolean) holds the integer 5. -/
def c4margs : List PyValue :=
  [PyValue.PStr "match.dem", PyValue.PInt 32, PyValue.PInt 5, PyValue.PInt 0,
   PyValue.PStr "hltv", PyValue.PBool false, PyValue.PStr "demo1",
   PyValue.PBool false, PyValue.PStr "out.json"]

/-- A nine-argument tuple whose first position (dem_path, declared string)
holds the integer 7. -/
def c4wargs : List PyValue :=
  [PyValue.PInt 7, PyValue.PInt 32, PyValue.PBool true, PyValue.PInt 0,
   PyValue.PStr "hltv", PyValue.PBool false, PyValue.PStr "demo1",
   PyValue.PBool false, PyValue.PStr "out.json"]

/-- A nine-argument tuple whose first position converts successfully and
whose second position (the `b` code) holds a string, so conversion fails at
position 2 after position 1 has already been written. -/
def c10args : List PyValue :=
  [PyValue.PStr "before.dem", PyValue.PStr "oops", PyValue.PBool true,
   PyValue.PInt 0, PyValue.PStr "hltv", PyValue.PBool false,
   PyValue.PStr "demo1", PyValue.PBool false, PyValue.PStr "out.json"]

theorem fmtParsedemo_eq : fmtParsedemo =
    [FmtCode.s, FmtCode.b, FmtCode.p, FmtCode.L, FmtCode.s, FmtCode.p,
     FmtCode.s, FmtCode.p, FmtCode.s] := by decide

theorem fmtParsedemo_length : fmtParsedemo.length = 9 := by decide

theorem convertAll_cons_some {f : FmtCode} {fs : List FmtCode} {a : PyValue}
    {rest : List PyValue} {slots : List NativeVal} {i : Nat} {v : NativeVal}
    (h : convertCode f a = some v) :
    convertAll (f :: fs) (a :: rest) slots i =
      convertAll fs rest (slots.set i v) (i + 1) := by
  simp [convertAll, h]

theorem convertAll_cons_none {f : FmtCode} {fs : List FmtCode} {a : PyValue}
    {rest : List PyValue} {slots : List NativeVal} {i : Nat}
    (h : convertCode f a = none) :
    convertAll (f :: fs) (a :: rest) slots i = (false, slots) := by
  simp [convertAll, h]

theorem convertAll_item_none {fs : List FmtCode} {vs : List PyValue} {i : Nat}
    {f : FmtCode} {a : PyValue} (hf : fs[i]? = some f) (ha : vs[i]? = some a)
    (hc : convertCode f a = none) (slots : List NativeVal) (k : Nat) :
    (convertAll fs vs slots k).1 = false := by
  induction fs generalizing vs i slots k with
  | nil => simp at hf
  | cons f0 fs ih =>
    cases vs with
    | nil => simp at ha
    | cons a0 rest =>
      cases i with
      | zero =>
        simp only [List.getElem?_cons_zero, Option.some.injEq] at hf ha
        subst hf; subst ha
        rw [convertAll_cons_none hc]
      | succ n =>
        simp only [List.getElem?_cons_succ] at hf ha
        cases hcc : convertCode f0 a0 with
        | none => rw [convertAll_cons_none hcc]
        | some v =>
          rw [convertAll_cons_some hcc]
          exact ih hf ha _ _

theorem exists_nine {α : Type} (l : List α) (h : l.length = 9) :
    ∃ b0 b1 b2 b3 b4 b5 b6 b7 b8,
      l = [b0, b1, b2, b3, b4, b5, b6, b7, b8] := by
  cases l with
  | nil => exact absurd h (by simp)
  | cons x0 t0 => cases t0 with
    | nil => exact absurd h (by simp)
    | cons x1 t1 => cases t1 with
      | nil => exact absurd h (by simp)
      | cons x2 t2 => cases t2 with
        | nil => exact absurd h (by simp)
        | cons x3 t3 => cases t3 with
          | nil => exact absurd h (by simp)
          | cons x4 t4 => cases t4 with
            | nil => exact absurd h (by simp)
            | cons x5 t5 => cases t5 with
              | nil => exact absurd h (by simp)
              | cons x6 t6 => cases t6 with
                | nil => exact absurd h (by simp)
                | cons x7 t7 => cases t7 with
                  | nil => exact absurd h (by simp)
                  | cons x8 t8 => cases t8 with
                    | nil => exact ⟨x0, x1, x2, x3, x4, x5, x6, x7, x8, rfl⟩
                    | cons x9 t9 =>
                      refine absurd h ?_
                      simp only [List.length_cons]
                      omega

theorem convS_none {a : PyValue} (h : isStr a = false) :
    convertCode FmtCode.s a = none := by
  cases a <;> simp_all [convertCode, isStr]

theorem convB_none {a : PyValue} (h : isIntLike a = false) :
    convertCode FmtCode.b a = none := by
  cases a <;> simp_all [convertCode, asLong, isIntLike]

theorem convL_none {a : PyValue} (h : isIntLike a = false) :
    convertCode FmtCode.L a = none := by
  cases a <;> simp_all [convertCode, asLong, isIntLike]

/-- Claim C3: for every call whose argument tuple has fewer or more than
nine elements, the conversion signals failure before writing anything, the
call returns a conversion error, and the parser entry point is never
invoked. -/
theorem C3_arity_mismatch_aborts
    (parseEntry : PyValue → List NativeVal → Except PyErr PyValue)
    (self : PyValue) (args : List PyValue) (slots : List NativeVal)
    (h : args.length ≠ 9) :
    parse_demo parseEntry self args slots =
      { result := Except.error PyErr.conversionError, slots := slots,
        parserInvoked := false } := by
  unfold parse_demo PyArg_ParseTuple_parse_demo PyArg_ParseTuple
  rw [fmtParsedemo_length, if_neg h]

/-- Witness for C3 at the empty argument tuple. -/
theorem C3_witness :
    List.length ([] : List PyValue) ≠ 9 ∧
    parse_demo stubOk PyValue.PNone [] initSlots =
      { result := Except.error PyErr.conversionError, slots := initSlots,
        parserInvoked := false } :=
  ⟨by decide, C3_arity_mismatch_aborts stubOk PyValue.PNone [] initSlots (by decide)⟩

/-- Claim C5: any error raised by the external parser entry point is
returned to the caller unchanged: no recovery, no retry, no wrapping. -/
theorem C5_error_propagated (e : PyErr) (self : PyValue)
    (args : List PyValue) (slots : List NativeVal)
    (h : (PyArg_ParseTuple_parse_demo args slots).1 = true) :
    (parse_demo (fun _ _ => Except.error e) self args slots).result =
      Except.error e := by
  unfold parse_demo
  rcases hq : PyArg_ParseTuple_parse_demo args slots with ⟨ok, slots1⟩
  rw [hq] at h
  simp only at h
  subst h
  rfl

/-- Witness for C5 on a well-typed call with a failing stub parser. -/
theorem C5_witness :
    (PyArg_ParseTuple_parse_demo (rateArgs 32) initSlots).1 = true ∧
    (parse_demo (fun _ _ => Except.error (PyErr.parserFailure "disk full"))
        PyValue.PNone (rateArgs 32) initSlots).result =
      Except.error (PyErr.parserFailure "disk full") :=
  ⟨by decide,
   C5_error_propagated (PyErr.parserFailure "disk full") PyValue.PNone
     (rateArgs 32) initSlots (by decide)⟩

/-- Claim C6: the registration table exposes exactly one callable, named
"parse", with the METH_VARARGS calling convention, in a module named
"wrapper". -/
theorem C6_registration :
    module.m_name = "wrapper" ∧
    module.m_methods =
      [{ ml_name := "parse", ml_flags := MethFlags.METH_VARARGS }] := by
  exact ⟨rfl, rfl⟩

/-- Claim C7: module initialization is idempotent and stateless: invoked
twice in the same process it leaves the process state untouched, returns
the same module handle both times, and a usable "parse" callable is found
in the handle's table both times. -/
theorem C7_idempotent_stateless (st : ProcState) :
    (PyInit_wrapper st).2 = st ∧
    (PyInit_wrapper (PyInit_wrapper st).2).1 = (PyInit_wrapper st).1 ∧
    lookupMethod "parse" (PyInit_wrapper st).1 =
      some { ml_name := "parse", ml_flags := MethFlags.METH_VARARGS } ∧
    lookupMethod "parse" (PyInit_wrapper (PyInit_wrapper st).2).1 =
      some { ml_name := "parse", ml_flags := MethFlags.METH_VARARGS } :=
  ⟨rfl, rfl, rfl, rfl⟩

/-- Claim C8: the parse-rate position is converted with the single-byte
`b` code, so any integer outside 0..255 makes the conversion fail. -/
theorem C8_byte_range (v : Int) (hv : v < 0 ∨ 255 < v)
    (slots : List NativeVal) :
    (PyArg_ParseTuple_parse_demo (rateArgs v) slots).1 = false := by
  have hrange : ¬(0 ≤ v ∧ v ≤ 255) := by omega
  have h0 : convertCode FmtCode.s (PyValue.PStr "match.dem") =
      some (NativeVal.nStr "match.dem") := by decide
  have h1 : convertCode FmtCode.b (PyValue.PInt v) = none := by
    simp [convertCode, asLong, hrange]
  unfold PyArg_ParseTuple_parse_demo PyArg_ParseTuple
  rw [fmtParsedemo_eq]
  show (convertAll
    [FmtCode.s, FmtCode.b, FmtCode.p, FmtCode.L, FmtCode.s, FmtCode.p,
     FmtCode.s, FmtCode.p, FmtCode.s] (rateArgs v) slots 0).1 = false
  unfold rateArgs
  rw [convertAll_cons_some h0, convertAll_cons_none h1]

/-- Witness for C8 at parse rate 256. -/
theorem C8_witness :
    ((256 : Int) < 0 ∨ (255 : Int) < 256) ∧
    (PyArg_ParseTuple_parse_demo (rateArgs 256) initSlots).1 = false :=
  ⟨by decide, C8_byte_range 256 (by decide) initSlots⟩

/-- Claim C10: conversion is not atomic in its output locations: on the
input `c10args` conversion fails at position 2, yet the output location of
position 1 has already been overwritten with the converted first value. -/
theorem C10_non_atomic :
    (PyArg_ParseTuple_parse_demo c10args initSlots).1 = false ∧
    (PyArg_ParseTuple_parse_demo c10args initSlots).2[0]? =
      some (NativeVal.nStr "before.dem") ∧
    initSlots[0]? = some (NativeVal.nStr "") := by
  decide

/-- Counterexample to claim C1: `rateArgs 256` is a well-typed 9-tuple
(string, integer, boolean, 64-bit integer, string, boolean, string,
boolean, string), yet the adapter does not return the stub parser's result
(`Except.ok PyValue.PNone`) verbatim: the `b` format code rejects the
integer 256 and the parser is never invoked. -/
theorem C1_counterexample :
    (parse_demo stubOk PyValue.PNone (rateArgs 256) initSlots).result =
      Except.error PyErr.conversionError ∧
    (parse_demo stubOk PyValue.PNone (rateArgs 256) initSlots).parserInvoked =
      false := by
  decide

/-- Claim C1 (amended): for every well-typed 9-tuple whose integer lies in
0..255, whose 64-bit integer is within signed 64-bit range and whose
strings contain no embedded NUL, the conversion writes exactly the nine
converted values, in order, into the nine caller-supplied output
locations, and the call returns the parser entry point's result verbatim
with no transformation. -/
theorem C1_forwarding (dem rb demoId outp : String) (r t : Int) (f d j : Bool)
    (parseEntry : PyValue → List NativeVal → Except PyErr PyValue)
    (self : PyValue) (slots : List NativeVal)
    (hdem : hasNul dem = false) (hrb : hasNul rb = false)
    (hdid : hasNul demoId = false) (houtp : hasNul outp = false)
    (hr : 0 ≤ r ∧ r ≤ 255) (ht : int64Min ≤ t ∧ t ≤ int64Max)
    (hs : slots.length = 9) :
    parse_demo parseEntry self
      [PyValue.PStr dem, PyValue.PInt r, PyValue.PBool f, PyValue.PInt t,
       PyValue.PStr rb, PyValue.PBool d, PyValue.PStr demoId,
       PyValue.PBool j, PyValue.PStr outp] slots =
      { result := parseEntry self
          [NativeVal.nStr dem, NativeVal.nUChar r,
           NativeVal.nInt01 (if f then 1 else 0), NativeVal.nLongLong t,
           NativeVal.nStr rb, NativeVal.nInt01 (if d then 1 else 0),
           NativeVal.nStr demoId, NativeVal.nInt01 (if j then 1 else 0),
           NativeVal.nStr outp],
        slots :=
          [NativeVal.nStr dem, NativeVal.nUChar r,
           NativeVal.nInt01 (if f then 1 else 0), NativeVal.nLongLong t,
           NativeVal.nStr rb, NativeVal.nInt01 (if d then 1 else 0),
           NativeVal.nStr demoId, NativeVal.nInt01 (if j then 1 else 0),
           NativeVal.nStr outp],
        parserInvoked := true } := by
  obtain ⟨a0, a1, a2, a3, a4, a5, a6, a7, a8, rfl⟩ := exists_nine slots hs
  have h0 : convertCode FmtCode.s (PyValue.PStr dem) =
      some (NativeVal.nStr dem) := by simp [convertCode, hdem]
  have h1 : convertCode FmtCode.b (PyValue.PInt r) =
      some (NativeVal.nUChar r) := by simp [convertCode, asLong, hr]
  have h2 : convertCode FmtCode.p (PyValue.PBool f) =
      some (NativeVal.nInt01 (if f then 1 else 0)) := rfl
  have h3 : convertCode FmtCode.L (PyValue.PInt t) =
      some (NativeVal.nLongLong t) := by simp [convertCode, asLong, ht]
  have h4 : convertCode FmtCode.s (PyValue.PStr rb) =
      some (NativeVal.nStr rb) := by simp [convertCode, hrb]
  have h5 : convertCode FmtCode.p (PyValue.PBool d) =
      some (NativeVal.nInt01 (if d then 1 else 0)) := rfl
  have h6 : convertCode FmtCode.s (PyValue.PStr demoId) =
      some (NativeVal.nStr demoId) := by simp [convertCode, hdid]
  have h7 : convertCode FmtCode.p (PyValue.PBool j) =
      some (NativeVal.nInt01 (if j then 1 else 0)) := rfl
  have h8 : convertCode FmtCode.s (PyValue.PStr outp) =
      some (NativeVal.nStr outp) := by simp [convertCode, houtp]
  have hconv : PyArg_ParseTuple_parse_demo
      [PyValue.PStr dem, PyValue.PInt r, PyValue.PBool f, PyValue.PInt t,
       PyValue.PStr rb, PyValue.PBool d, PyValue.PStr demoId,
       PyValue.PBool j, PyValue.PStr outp]
      [a0, a1, a2, a3, a4, a5, a6, a7, a8] =
      (true,
       [NativeVal.nStr dem, NativeVal.nUChar r,
        NativeVal.nInt01 (if f then 1 else 0), NativeVal.nLongLong t,
        NativeVal.nStr rb, NativeVal.nInt01 (if d then 1 else 0),
        NativeVal.nStr demoId, NativeVal.nInt01 (if j then 1 else 0),
        NativeVal.nStr outp]) := by
    unfold PyArg_ParseTuple_parse_demo PyArg_ParseTuple
    rw [fmtParsedemo_eq]
    have hlen9 : ([PyValue.PStr dem, PyValue.PInt r, PyValue.PBool f,
        PyValue.PInt t, PyValue.PStr rb, PyValue.PBool d, PyValue.PStr demoId,
        PyValue.PBool j, PyValue.PStr outp] : List PyValue).length =
        ([FmtCode.s, FmtCode.b, FmtCode.p, FmtCode.L, FmtCode.s, FmtCode.p,
          FmtCode.s, FmtCode.p, FmtCode.s] : List FmtCode).length := rfl
    rw [if_pos hlen9]
    rw [convertAll_cons_some h0, convertAll_cons_some h1,
        convertAll_cons_some h2, convertAll_cons_some h3,
        convertAll_cons_some h4, convertAll_cons_some h5,
        convertAll_cons_some h6, convertAll_cons_some h7,
        convertAll_cons_some h8]
    rfl
  unfold parse_demo
  rw [hconv]

/-- Witness for C1 (amended) at a concrete well-typed call. -/
theorem C1_witness :
    hasNul "a.dem" = false ∧ hasNul "hltv" = false ∧ hasNul "d1" = false ∧
    hasNul "o.json" = false ∧ (0 ≤ (32 : Int) ∧ (32 : Int) ≤ 255) ∧
    (int64Min ≤ (5 : Int) ∧ (5 : Int) ≤ int64Max) ∧
    initSlots.length = 9 ∧
    parse_demo stubOk PyValue.PNone
      [PyValue.PStr "a.dem", PyValue.PInt 32, PyValue.PBool true,
       PyValue.PInt 5, PyValue.PStr "hltv", PyValue.PBool false,
       PyValue.PStr "d1", PyValue.PBool true, PyValue.PStr "o.json"]
      initSlots =
      { result := Except.ok PyValue.PNone,
        slots :=
          [NativeVal.nStr "a.dem", NativeVal.nUChar 32, NativeVal.nInt01 1,
           NativeVal.nLongLong 5, NativeVal.nStr "hltv", NativeVal.nInt01 0,
           NativeVal.nStr "d1", NativeVal.nInt01 1, NativeVal.nStr "o.json"],
        parserInvoked := true } :=
  ⟨by decide, by decide, by decide, by decide, by decide, by decide, by decide,
   C1_forwarding "a.dem" "hltv" "d1" "o.json" 32 5 true false true stubOk
     PyValue.PNone initSlots (by decide) (by decide) (by decide) (by decide)
     (by decide) (by decide) (by decide)⟩

/-- Counterexample to claim C2: the format descriptor read from the source
string "sbpLspsps" is not the spec's (string, boolean, boolean, 64-bit
integer, string, boolean, string, boolean, string) — its second code is
the unsigned-byte integer code, not the truth-value code — and the C types
the descriptor stores through its output pointers do not agree with the
declared native parameter types of the conversion function. -/
theorem C2_counterexample :
    fmtParsedemo ≠ specClaimedDescriptor ∧
    fmtParsedemo.map fmtNativeType ≠ declaredParamTypes := by
  decide

/-- Claim C2 (amended): the conversion function interprets the fixed
descriptor (string, unsigned-byte integer, truth-value, long long, string,
truth-value, string, truth-value, string), and this descriptor disagrees
with the declared native parameter types exactly at the parse-rate
position (unsigned char stored through an int pointer) and the three
truth-value positions (int stored through bool pointers), i.e. at
zero-based positions 1, 2, 5 and 7. -/
theorem C2_descriptor :
    fmtParsedemo =
      [FmtCode.s, FmtCode.b, FmtCode.p, FmtCode.L, FmtCode.s, FmtCode.p,
       FmtCode.s, FmtCode.p, FmtCode.s] ∧
    (List.range 9).filter
      (fun i => decide
        (¬ (fmtParsedemo.map fmtNativeType)[i]? = declaredParamTypes[i]?)) =
      [1, 2, 5, 7] := by
  decide

/-- Counterexample to claim C4: in `c4margs` the parse_frames position
(declared boolean) holds the integer 5 — a type disagreeing with its
declared primitive — yet conversion succeeds, the parser entry point is
invoked, and its result is returned. -/
theorem C4_counterexample :
    c4margs[2]? = some (PyValue.PInt 5) ∧
    (parse_demo stubOk PyValue.PNone c4margs initSlots).parserInvoked = true ∧
    (parse_demo stubOk PyValue.PNone c4margs initSlots).result =
      Except.ok PyValue.PNone := by
  decide

/-- Claim C4 (amended): for every call in which a positional argument at a
string-coded or integer-coded position (format codes s, b, L) has a type
disagreeing with that primitive, the conversion fails, the call returns a
conversion error, and the parser entry point is never invoked; the three
truth-value positions are exempt. -/
theorem C4_mismatch_aborts
    (parseEntry : PyValue → List NativeVal → Except PyErr PyValue)
    (self : PyValue) (args : List PyValue) (slots : List NativeVal)
    (i : Nat) (a : PyValue) (ha : args[i]? = some a)
    (hm : (fmtParsedemo[i]? = some FmtCode.s ∧ isStr a = false) ∨
          ((fmtParsedemo[i]? = some FmtCode.b ∨
            fmtParsedemo[i]? = some FmtCode.L) ∧ isIntLike a = false)) :
    (parse_demo parseEntry self args slots).result =
      Except.error PyErr.conversionError ∧
    (parse_demo parseEntry self args slots).parserInvoked = false := by
  have key : ∃ f, fmtParsedemo[i]? = some f ∧ convertCode f a = none := by
    rcases hm with ⟨hf, hstr⟩ | ⟨hf | hf, hil⟩
    · exact ⟨FmtCode.s, hf, convS_none hstr⟩
    · exact ⟨FmtCode.b, hf, convB_none hil⟩
    · exact ⟨FmtCode.L, hf, convL_none hil⟩
  rcases key with ⟨f, hf, hc⟩
  rcases hq : PyArg_ParseTuple_parse_demo args slots with ⟨ok, slots1⟩
  have hok : ok = false := by
    unfold PyArg_ParseTuple_parse_demo PyArg_ParseTuple at hq
    rw [fmtParsedemo_length] at hq
    by_cases hlen : args.length = 9
    · rw [if_pos hlen] at hq
      have hfalse := convertAll_item_none hf ha hc slots 0
      rw [hq] at hfalse
      exact hfalse
    · rw [if_neg hlen] at hq
      injection hq with hq1 hq2
      exact hq1.symm
  subst hok
  unfold parse_demo
  rw [hq]
  exact ⟨rfl, rfl⟩

/-- Witness for C4 (amended): an integer where the dem_path string is
expected aborts the call before the parser. -/
theorem C4_witness :
    c4wargs[0]? = some (PyValue.PInt 7) ∧
    (fmtParsedemo[0]? = some FmtCode.s ∧ isStr (PyValue.PInt 7) = false) ∧
    (parse_demo stubOk PyValue.PNone c4wargs initSlots).result =
      Except.error PyErr.conversionError ∧
    (parse_demo stubOk PyValue.PNone c4wargs initSlots).parserInvoked =
      false :=
  ⟨by decide, ⟨by decide, by decide⟩,
   C4_mismatch_aborts stubOk PyValue.PNone c4wargs initSlots 0
     (PyValue.PInt 7) (by decide) (Or.inl ⟨by decide, by decide⟩)⟩

/-- Claim C9: the truth-value code accepts a value of any type, storing its
truthiness as 0 or 1, and a call whose three truth-value positions hold
arbitrary values (with all other positions well typed) converts
successfully, with the truthiness of each stored in its output location. -/
theorem C9_p_accepts_any (f d j : PyValue) :
    (∀ v : PyValue, convertCode FmtCode.p v =
      some (NativeVal.nInt01 (if truthy v then 1 else 0))) ∧
    PyArg_ParseTuple_parse_demo (boolArgs f d j) initSlots =
      (true,
       [NativeVal.nStr "match.dem", NativeVal.nUChar 32,
        NativeVal.nInt01 (if truthy f then 1 else 0), NativeVal.nLongLong 5,
        NativeVal.nStr "hltv", NativeVal.nInt01 (if truthy d then 1 else 0),
        NativeVal.nStr "demo1", NativeVal.nInt01 (if truthy j then 1 else 0),
        NativeVal.nStr "out.json"]) := by
  constructor
  · intro v; rfl
  · have h0 : convertCode FmtCode.s (PyValue.PStr "match.dem") =
        some (NativeVal.nStr "match.dem") := by decide
    have h1 : convertCode FmtCode.b (PyValue.PInt 32) =
        some (NativeVal.nUChar 32) := by decide
    have h2 : convertCode FmtCode.p f =
        some (NativeVal.nInt01 (if truthy f then 1 else 0)) := rfl
    have h3 : convertCode FmtCode.L (PyValue.PInt 5) =
        some (NativeVal.nLongLong 5) := by decide
    have h4 : convertCode FmtCode.s (PyValue.PStr "hltv") =
        some (NativeVal.nStr "hltv") := by decide
    have h5 : convertCode FmtCode.p d =
        some (NativeVal.nInt01 (if truthy d then 1 else 0)) := rfl
    have h6 : convertCode FmtCode.s (PyValue.PStr "demo1") =
        some (NativeVal.nStr "demo1") := by decide
    have h7 : convertCode FmtCode.p j =
        some (NativeVal.nInt01 (if truthy j then 1 else 0)) := rfl
    have h8 : convertCode FmtCode.s (PyValue.PStr "out.json") =
        some (NativeVal.nStr "out.json") := by decide
    unfold PyArg_ParseTuple_parse_demo PyArg_ParseTuple
    rw [fmtParsedemo_eq]
    have hlen9 : (boolArgs f d j).length =
        ([FmtCode.s, FmtCode.b, FmtCode.p, FmtCode.L, FmtCode.s, FmtCode.p,
          FmtCode.s, FmtCode.p, FmtCode.s] : List FmtCode).length := rfl
    rw [if_pos hlen9]
    unfold boolArgs
    rw [convertAll_cons_some h0, convertAll_cons_some h1,
        convertAll_cons_some h2, convertAll_cons_some h3,
        convertAll_cons_some h4, convertAll_cons_some h5,
        convertAll_cons_some h6, convertAll_cons_some h7,
        convertAll_cons_some h8]
    rfl
